import Mathlib

/-!
Shallow embedding of the SoundWire bus binding layer
(`soundwire/bus_type.c`, `soundwire/master.c`): device/driver matching,
the probe/remove wrappers with power-domain bookkeeping, modalias
formatting, and driver registration.

Machine integers are modelled as `Nat` (the id fields are `u16`, the
timeouts `u32`; theorems carry the bounds where they matter).  C strings
are `List Char` (no embedded NUL).  Calls to external collaborators
(power-domain attach/detach, the driver's own callbacks, the driver
registry) are modelled by explicit return-value inputs and by an event
trace recording which external calls the wrapper made, in order.
-/

/-- Entry of a driver's identity table (`struct sdw_device_id`):
a (manufacturer id, part id) pair, both `u16`.  A table is terminated by
a zero-`mfg_id` sentinel entry. -/
structure sdw_device_id where
  mfg_id : Nat
  part_id : Nat
deriving DecidableEq, Repr

/-- Identity of a discovered peripheral (slave) device (`struct sdw_slave_id`,
the fields the bus layer reads). -/
structure sdw_slave_id where
  mfg_id : Nat
  part_id : Nat
deriving DecidableEq, Repr

/-- The slave property bag, restricted to the field this layer touches
(`slave->prop.clk_stop_timeout`, a `u32`). -/
structure sdw_slave_prop where
  clk_stop_timeout : Nat
deriving DecidableEq, Repr

/-- Slave driver callback set (`struct sdw_slave_ops`): the optional
`read_prop` callback, modelled by the transformation it applies to the
slave's property bag. -/
structure sdw_slave_ops where
  read_prop : Option (sdw_slave_prop → sdw_slave_prop)

/-- State of a slave device (`struct sdw_slave`) as seen by this layer:
its identity, property bag, `probed` flag, installed ops, and the owning
bus's shared `clk_stop_timeout` (`slave->bus->clk_stop_timeout`). -/
structure sdw_slave where
  id : sdw_slave_id
  prop : sdw_slave_prop
  probed : Bool
  ops : Option sdw_slave_ops
  bus_clk_stop_timeout : Nat

/-- A slave driver record (`struct sdw_driver`).  The `probe` callback is
modelled by the function it is: given the matched identity entry and the
slave's property bag it yields its return code and the updated bag.
`remove` is modelled by the return code it yields for the run under
consideration; `shutdown` by its presence. -/
structure sdw_driver where
  name : List Char
  id_table : Option (List sdw_device_id)
  ops : Option sdw_slave_ops
  probe : Option (sdw_device_id → sdw_slave_prop → Int × sdw_slave_prop)
  remove : Option Int
  shutdown : Option Unit

/-- A master (controller) device (`struct sdw_master_device`): the bus
layer's match and probe paths read only its name. -/
structure sdw_master_device where
  master_name : List Char

/-- A master driver record (`struct sdw_master_driver`); `name` is
`mdrv->driver.name`.  Callbacks are modelled by the return codes they
yield for the run under consideration. -/
structure sdw_master_driver where
  name : List Char
  probe : Option Int
  remove : Option Int
  shutdown : Option Unit

/-- External calls a wrapper can make, recorded in order in a trace. -/
inductive Event where
  | pmAttach
  | pmDetach
  | driverProbe
  | driverRemove
  | readProp
  | completeSignal
deriving DecidableEq, Repr

/-- Loop body of `sdw_get_device_id`: walk the table entries in order,
stop at the first zero-`mfg_id` (sentinel) entry, return the first entry
equal to the slave's (mfg_id, part_id), else none. -/
def sdw_get_device_id_loop (sid : sdw_slave_id) : List sdw_device_id → Option sdw_device_id
  | [] => none
  | id :: rest =>
    if id.mfg_id = 0 then none
    else if sid.mfg_id = id.mfg_id ∧ sid.part_id = id.part_id then some id
    else sdw_get_device_id_loop sid rest

/-- `sdw_get_device_id`: find the matching identity-table entry; a null
`id_table` pointer is `none` and yields no entry (the `while (id && ...)`
guard). -/
def sdw_get_device_id (slave : sdw_slave) (drv : sdw_driver) : Option sdw_device_id :=
  match drv.id_table with
  | none => none
  | some tbl => sdw_get_device_id_loop slave.id tbl

/-- Slave branch of `sdw_bus_match`: `ret = !!sdw_get_device_id(slave, drv)`. -/
def sdw_bus_match_slave (slave : sdw_slave) (drv : sdw_driver) : Bool :=
  (sdw_get_device_id slave drv).isSome

/-- C `strncmp` on NUL-free strings, comparing at most `n` characters and
stopping at the end of either string.  Only the sign of the result is
specified by C, so mismatches yield `-1`/`1`. -/
def strncmp (s1 s2 : List Char) (n : Nat) : Int :=
  match n, s1, s2 with
  | 0, _, _ => 0
  | _ + 1, [], [] => 0
  | _ + 1, [], _ :: _ => -1
  | _ + 1, _ :: _, [] => 1
  | n + 1, c1 :: t1, c2 :: t2 =>
    if c1 = c2 then strncmp t1 t2 n
    else if c1 < c2 then -1 else 1

/-- Master branch of `sdw_bus_match`:
`ret = !strncmp(md->master_name, mdrv->driver.name, strlen(md->master_name))`. -/
def sdw_bus_match_master (md : sdw_master_device) (mdrv : sdw_master_driver) : Bool :=
  strncmp md.master_name mdrv.name md.master_name.length = 0

/-- Predicate the table walk stops on: entry is not the sentinel. -/
def notSentinel (e : sdw_device_id) : Bool := !(e.mfg_id == 0)

/-- Predicate for the table walk's match test, on the slave's id. -/
def idMatches (sid : sdw_slave_id) (e : sdw_device_id) : Bool :=
  sid.mfg_id == e.mfg_id && sid.part_id == e.part_id

/-- The `read_prop` step of `sdw_drv_probe`:
`if (slave->ops && slave->ops->read_prop) slave->ops->read_prop(slave);`.
Returns the updated slave and the events emitted. -/
def read_prop_step (slave : sdw_slave) : sdw_slave × List Event :=
  match slave.ops with
  | some ops =>
    match ops.read_prop with
    | some f => ({ slave with prop := f slave.prop }, [Event.readProp])
    | none => (slave, [])
  | none => (slave, [])

/-- `sdw_drv_probe`, the slave probe wrapper.  `attach_ret` is the value
`dev_pm_domain_attach` returns in this run.  Yields the return code, the
final slave state and the trace of external calls; `none` models the
impossible dereference of a null `drv->probe` (registration rejects such
drivers).  `-19` is `-ENODEV`. -/
def sdw_drv_probe (slave : sdw_slave) (drv : sdw_driver) (attach_ret : Int) :
    Option (Int × sdw_slave × List Event) :=
  match sdw_get_device_id slave drv with
  | none => some (-19, slave, [])
  | some id =>
    let slave1 := { slave with ops := drv.ops }
    if attach_ret ≠ 0 then
      some (attach_ret, slave1, [Event.pmAttach])
    else
      match drv.probe with
      | none => none
      | some probe_cb =>
        let ret := (probe_cb id slave1.prop).1
        let slave2 := { slave1 with prop := (probe_cb id slave1.prop).2 }
        if ret ≠ 0 then
          some (ret, slave2, [Event.pmAttach, Event.driverProbe, Event.pmDetach])
        else
          let slave3 := (read_prop_step slave2).1
          let slave4 :=
            if slave3.prop.clk_stop_timeout = 0 then
              { slave3 with prop := { slave3.prop with clk_stop_timeout := 300 } }
            else slave3
          let slave5 := { slave4 with
            bus_clk_stop_timeout := max slave4.bus_clk_stop_timeout slave4.prop.clk_stop_timeout }
          let slave6 := { slave5 with probed := true }
          some (0, slave6,
            [Event.pmAttach, Event.driverProbe] ++ (read_prop_step slave2).2
              ++ [Event.completeSignal])

/-- The slave's property bag as it stands when `sdw_drv_probe` reaches
the `clk_stop_timeout` check: after the driver's probe callback and the
`read_prop` step have run, for a run that matched entry `id`. -/
def probe_declared_prop (slave : sdw_slave) (drv : sdw_driver) (id : sdw_device_id) :
    sdw_slave_prop :=
  match drv.probe with
  | none => slave.prop
  | some probe_cb =>
    ((read_prop_step
        { slave with ops := drv.ops, prop := (probe_cb id slave.prop).2 }).1).prop

/-- `sdw_drv_remove`, the slave remove wrapper: call the driver's
`remove` callback when present, then always detach the power domain, and
return the callback's code (0 when absent). -/
def sdw_drv_remove (drv : sdw_driver) : Int × List Event :=
  match drv.remove with
  | some r => (r, [Event.driverRemove, Event.pmDetach])
  | none => (0, [Event.pmDetach])

/-- `sdw_master_drv_probe`, the master probe wrapper: attach the power
domain, call the driver's probe, detach and propagate on failure; on
success just return 0 (no probed flag, no completion signal). -/
def sdw_master_drv_probe (mdrv : sdw_master_driver) (attach_ret : Int) :
    Option (Int × List Event) :=
  if attach_ret ≠ 0 then
    some (attach_ret, [Event.pmAttach])
  else
    match mdrv.probe with
    | none => none
    | some r =>
      if r ≠ 0 then
        some (r, [Event.pmAttach, Event.driverProbe, Event.pmDetach])
      else
        some (0, [Event.pmAttach, Event.driverProbe])

/-- `sdw_master_drv_remove`: identical shape to the slave remove
wrapper. -/
def sdw_master_drv_remove (mdrv : sdw_master_driver) : Int × List Event :=
  match mdrv.remove with
  | some r => (r, [Event.driverRemove, Event.pmDetach])
  | none => (0, [Event.pmDetach])

/-- Which Bind Protocol entry points registration installed on the
generic driver record (`drv->driver.probe/remove/shutdown`). -/
structure driver_hooks where
  probe_hook : Bool
  remove_hook : Bool
  shutdown_hook : Bool
deriving DecidableEq, Repr

/-- `__sdw_register_driver`: reject a driver without a `probe` callback
with `-EINVAL` (= `-22`) before any registry call; otherwise install the
wrappers (remove/shutdown only when the driver supplied the callback)
and return `driver_register`'s result.  The `Bool` records whether
`driver_register` was called. -/
def __sdw_register_driver (drv : sdw_driver) (registry_ret : Int) :
    Int × driver_hooks × Bool :=
  if drv.probe.isNone then
    (-22, ⟨false, false, false⟩, false)
  else
    (registry_ret, ⟨true, drv.remove.isSome, drv.shutdown.isSome⟩, true)

/-- `__sdw_register_master_driver`: same contract for master drivers. -/
def __sdw_register_master_driver (mdrv : sdw_master_driver) (registry_ret : Int) :
    Int × driver_hooks × Bool :=
  if mdrv.probe.isNone then
    (-22, ⟨false, false, false⟩, false)
  else
    (registry_ret, ⟨true, mdrv.remove.isSome, mdrv.shutdown.isSome⟩, true)

/-- Uppercase hexadecimal digit for a value below 16 (printf `%X`). -/
def hexDigit (n : Nat) : Char :=
  if n < 10 then Char.ofNat (48 + n) else Char.ofNat (55 + n)

/-- Hex digits of `n`, least significant first (`[]` for 0); the first
argument is structural-recursion fuel, `n` itself always suffices. -/
def hexRevAux : Nat → Nat → List Char
  | 0, _ => []
  | fuel + 1, n => if n = 0 then [] else hexDigit (n % 16) :: hexRevAux fuel (n / 16)

/-- printf `%X`: minimal-width uppercase hex rendering of `n`. -/
def snprintf_X (n : Nat) : List Char :=
  if n = 0 then ['0'] else (hexRevAux n n).reverse

/-- printf `%04X`: `%X` zero-padded on the left to at least 4 digits. -/
def snprintf_04X (n : Nat) : List Char :=
  List.replicate (4 - (snprintf_X n).length) '0' ++ snprintf_X n

/-- Exactly four uppercase hex digits of a 16-bit value, most significant
first — the spec's reading of `%04X` on a `u16`. -/
def hex4 (n : Nat) : List Char :=
  [hexDigit (n / 4096 % 16), hexDigit (n / 256 % 16), hexDigit (n / 16 % 16),
   hexDigit (n % 16)]

/-- `sdw_slave_modalias`: `snprintf(buf, size, "sdw:m%04Xp%04X\n", ...)`,
modelled as the full formatted string (the uevent buffer is large enough
that no truncation occurs for `u16` ids). -/
def sdw_slave_modalias (slave : sdw_slave) : List Char :=
  "sdw:m".toList ++ snprintf_04X slave.id.mfg_id ++ "p".toList
    ++ snprintf_04X slave.id.part_id ++ "\n".toList

/-- `sdw_master_modalias`: `snprintf(buf, size, "sdw:%s\n", master_name)`. -/
def sdw_master_modalias (md : sdw_master_device) : List Char :=
  "sdw:".toList ++ md.master_name ++ "\n".toList

/-- Concrete slave used to instantiate the lifecycle theorems: the
spec's scenario device (0x1234, 0x5678), unset `clk_stop_timeout`, on a
bus whose shared timeout starts at 150. -/
def wSlave : sdw_slave := ⟨⟨0x1234, 0x5678⟩, ⟨0⟩, false, none, 150⟩

/-- A probe callback that succeeds and leaves the property bag alone. -/
def wProbeOk : sdw_device_id → sdw_slave_prop → Int × sdw_slave_prop :=
  fun _ p => (0, p)

/-- A probe callback that fails with -5 and leaves the property bag
alone. -/
def wProbeFail : sdw_device_id → sdw_slave_prop → Int × sdw_slave_prop :=
  fun _ p => (-5, p)

/-- Concrete driver whose table matches `wSlave` and whose probe
callback succeeds. -/
def wDrvOk : sdw_driver :=
  ⟨['d'], some [⟨0x1234, 0x5678⟩, ⟨0, 0⟩], none, some wProbeOk, none, none⟩

/-- Concrete driver whose table matches `wSlave` and whose probe
callback fails with -5. -/
def wDrvFail : sdw_driver :=
  ⟨['d'], some [⟨0x1234, 0x5678⟩, ⟨0, 0⟩], none, some wProbeFail, none, none⟩

/-- Concrete driver with a `remove` callback that fails with -7. -/
def wDrvRem : sdw_driver :=
  ⟨['r'], some [⟨0x1234, 0x5678⟩, ⟨0, 0⟩], none, some wProbeOk, some (-7), none⟩

/-- Concrete master driver whose probe callback succeeds. -/
def wMdrvOk : sdw_master_driver := ⟨"link-0-ctrl".toList, some 0, none, none⟩

/-- Concrete master driver whose probe callback fails with -5 and whose
remove callback fails with -7. -/
def wMdrvFail : sdw_master_driver := ⟨['m'], some (-5), some (-7), none⟩

/-- Concrete slave driver that declares no probe callback. -/
def wDrvNoProbe : sdw_driver := ⟨['n'], none, none, none, some 1, some ()⟩

/-- Concrete master driver that declares no probe callback. -/
def wMdrvNoProbe : sdw_master_driver := ⟨['n'], none, some 1, none⟩

theorem sdw_get_device_id_loop_eq (sid : sdw_slave_id) (tbl : List sdw_device_id) :
    sdw_get_device_id_loop sid tbl = (tbl.takeWhile notSentinel).find? (idMatches sid) := by
  induction tbl with
  | nil => rfl
  | cons e rest ih =>
    by_cases h0 : e.mfg_id = 0
    · simp [sdw_get_device_id_loop, h0, List.takeWhile_cons, notSentinel]
    · by_cases hm : sid.mfg_id = e.mfg_id ∧ sid.part_id = e.part_id
      · simp [sdw_get_device_id_loop, h0, hm, List.takeWhile_cons, notSentinel,
          List.find?_cons, idMatches, hm.1, hm.2]
      · have : idMatches sid e = false := by
          simp [idMatches]
          intro h1 h2
          exact absurd ⟨h1, h2⟩ hm
        simp [sdw_get_device_id_loop, h0, hm, List.takeWhile_cons, notSentinel,
          List.find?_cons, this, ih]

/-- C1: the slave match predicate is true iff some entry of the driver's
identity table occurring strictly before the zero-`mfg_id` sentinel has
`mfg_id` and `part_id` exactly equal to the device's; the table is
scanned in order and `sdw_get_device_id` returns the first such entry
(`none` when the table is exhausted or absent). -/
theorem C1_slave_match_characterization (slave : sdw_slave) (drv : sdw_driver) :
    sdw_get_device_id slave drv
      = drv.id_table.bind (fun tbl => (tbl.takeWhile notSentinel).find? (idMatches slave.id))
    ∧ (sdw_bus_match_slave slave drv = true ↔
        ∃ tbl, drv.id_table = some tbl ∧
          ∃ e ∈ tbl.takeWhile notSentinel,
            slave.id.mfg_id = e.mfg_id ∧ slave.id.part_id = e.part_id) := by
  have hmain : sdw_get_device_id slave drv
      = drv.id_table.bind (fun tbl => (tbl.takeWhile notSentinel).find? (idMatches slave.id)) := by
    cases htbl : drv.id_table with
    | none => simp [sdw_get_device_id, htbl]
    | some tbl => simp [sdw_get_device_id, htbl, sdw_get_device_id_loop_eq]
  refine ⟨hmain, ?_⟩
  rw [sdw_bus_match_slave, hmain]
  cases htbl : drv.id_table with
  | none => simp
  | some tbl => simp [List.find?_isSome, idMatches]

/-- C1 witness: the spec's scenario device (0x1234, 0x5678) against the
table [(0x1234, 0x5678), sentinel] — the match predicate is true. -/
theorem C1_slave_match_characterization_scenario :
    sdw_bus_match_slave
        ⟨⟨0x1234, 0x5678⟩, ⟨0⟩, false, none, 150⟩
        ⟨[], some [⟨0x1234, 0x5678⟩, ⟨0, 0⟩], none, none, none, none⟩ = true :=
  (C1_slave_match_characterization
      ⟨⟨0x1234, 0x5678⟩, ⟨0⟩, false, none, 150⟩
      ⟨[], some [⟨0x1234, 0x5678⟩, ⟨0, 0⟩], none, none, none, none⟩).2.mpr
    ⟨[⟨0x1234, 0x5678⟩, ⟨0, 0⟩], rfl, ⟨0x1234, 0x5678⟩, by decide, rfl, rfl⟩

theorem strncmp_self_length_eq_zero_iff (a b : List Char) :
    strncmp a b a.length = 0 ↔ ∃ t, b = a ++ t := by
  induction a generalizing b with
  | nil =>
    simp only [List.length_nil, List.nil_append]
    constructor
    · intro _
      exact ⟨b, rfl⟩
    · intro _
      rfl
  | cons c a ih =>
    cases b with
    | nil =>
      simp only [List.length_cons, strncmp]
      constructor
      · intro h
        exact absurd h (by decide)
      · rintro ⟨t, ht⟩
        exact absurd ht (by simp)
    | cons c2 b =>
      by_cases hc : c = c2
      · subst hc
        have hstep : strncmp (c :: a) (c :: b) (c :: a).length = strncmp a b a.length := by
          simp [strncmp]
        rw [hstep, ih]
        constructor
        · rintro ⟨t, ht⟩
          exact ⟨t, by rw [List.cons_append, ht]⟩
        · rintro ⟨t, ht⟩
          rw [List.cons_append] at ht
          refine ⟨t, ?_⟩
          injection ht with h1 h2
      · have hstep : strncmp (c :: a) (c2 :: b) (c :: a).length
            = if c < c2 then (-1 : Int) else 1 := by
          simp [strncmp, hc]
        rw [hstep]
        constructor
        · intro h
          by_cases hlt : c < c2
          · rw [if_pos hlt] at h
            exact absurd h (by decide)
          · rw [if_neg hlt] at h
            exact absurd h (by decide)
        · rintro ⟨t, ht⟩
          rw [List.cons_append] at ht
          refine absurd ?_ hc
          injection ht with h1 h2
          exact h1.symm

/-- C9: the master (controller) match predicate is true iff the
controller device's name is a character-for-character prefix of the
driver's declared name — the comparison runs over exactly the length of
the device's name. -/
theorem C9_master_match_characterization (md : sdw_master_device) (mdrv : sdw_master_driver) :
    sdw_bus_match_master md mdrv = true ↔ ∃ t, mdrv.name = md.master_name ++ t := by
  rw [sdw_bus_match_master, decide_eq_true_iff]
  exact strncmp_self_length_eq_zero_iff md.master_name mdrv.name

/-- C9 witness: the spec's scenario — a controller named "link-0" matches
a driver declared "link-0-ctrl". -/
theorem C9_master_match_characterization_scenario :
    sdw_bus_match_master ⟨"link-0".toList⟩ ⟨"link-0-ctrl".toList, none, none, none⟩ = true :=
  (C9_master_match_characterization ⟨"link-0".toList⟩
      ⟨"link-0-ctrl".toList, none, none, none⟩).mpr ⟨"-ctrl".toList, by decide⟩

/-- C10: matching a slave against a driver whose identity table pointer
is null returns no entry, so the match predicate reports no match. -/
theorem C10_null_table_no_match (slave : sdw_slave) (drv : sdw_driver)
    (h : drv.id_table = none) :
    sdw_get_device_id slave drv = none ∧ sdw_bus_match_slave slave drv = false := by
  constructor
  · rw [sdw_get_device_id, h]
  · rw [sdw_bus_match_slave, sdw_get_device_id, h]
    rfl

/-- C10 witness: a concrete slave against a concrete driver with a null
identity table. -/
theorem C10_null_table_no_match_witness :
    sdw_get_device_id ⟨⟨0x1234, 0x5678⟩, ⟨0⟩, false, none, 0⟩
        ⟨[], none, none, none, none, none⟩ = none
    ∧ sdw_bus_match_slave ⟨⟨0x1234, 0x5678⟩, ⟨0⟩, false, none, 0⟩
        ⟨[], none, none, none, none, none⟩ = false :=
  C10_null_table_no_match ⟨⟨0x1234, 0x5678⟩, ⟨0⟩, false, none, 0⟩
    ⟨[], none, none, none, none, none⟩ rfl


/-- C2: when the driver's probe callback fails, both probe wrappers
detach the power domain before returning, return the callback's error
code unchanged, leave the `probed` flag untouched (hence false), and
never release the completion signal. -/
theorem C2_probe_callback_failure_rollback :
    (∀ (slave : sdw_slave) (drv : sdw_driver) (id : sdw_device_id) probe_cb ret s' tr,
      sdw_get_device_id slave drv = some id →
      drv.probe = some probe_cb →
      (probe_cb id slave.prop).1 ≠ 0 →
      sdw_drv_probe slave drv 0 = some (ret, s', tr) →
      ret = (probe_cb id slave.prop).1
        ∧ tr = [Event.pmAttach, Event.driverProbe, Event.pmDetach]
        ∧ s'.probed = slave.probed
        ∧ Event.completeSignal ∉ tr)
    ∧ (∀ (mdrv : sdw_master_driver) r ret tr,
      mdrv.probe = some r →
      r ≠ 0 →
      sdw_master_drv_probe mdrv 0 = some (ret, tr) →
      ret = r
        ∧ tr = [Event.pmAttach, Event.driverProbe, Event.pmDetach]
        ∧ Event.completeSignal ∉ tr) := by
  constructor
  · intro slave drv id probe_cb ret s' tr hid hcb hne hrun
    simp [sdw_drv_probe, hid, hcb, hne] at hrun
    obtain ⟨h1, h2, h3⟩ := hrun
    subst h1
    subst h3
    refine ⟨rfl, rfl, ?_, by decide⟩
    rw [← h2]
  · intro mdrv r ret tr hcb hne hrun
    simp [sdw_master_drv_probe, hcb, hne] at hrun
    obtain ⟨h1, h2⟩ := hrun
    subst h1
    subst h2
    exact ⟨rfl, rfl, by decide⟩

/-- C2 witness: `wSlave` probed by `wDrvFail` (callback fails with -5),
attach succeeding. -/
theorem C2_probe_callback_failure_rollback_witness :
    (-5 : Int) = (wProbeFail ⟨0x1234, 0x5678⟩ wSlave.prop).1
      ∧ [Event.pmAttach, Event.driverProbe, Event.pmDetach]
          = [Event.pmAttach, Event.driverProbe, Event.pmDetach]
      ∧ wSlave.probed = wSlave.probed
      ∧ Event.completeSignal ∉ [Event.pmAttach, Event.driverProbe, Event.pmDetach] :=
  C2_probe_callback_failure_rollback.1 wSlave wDrvFail ⟨0x1234, 0x5678⟩ wProbeFail
    (-5) wSlave [Event.pmAttach, Event.driverProbe, Event.pmDetach]
    rfl rfl (by decide) rfl

/-- C5: when the power-domain attach step fails, both probe wrappers
return the attach error unchanged, never invoke the driver's probe
callback, run no later step (the trace is just the attach attempt), and
leave the device unbound. -/
theorem C5_attach_failure_aborts :
    (∀ (slave : sdw_slave) (drv : sdw_driver) (id : sdw_device_id) a ret s' tr,
      sdw_get_device_id slave drv = some id →
      a ≠ 0 →
      sdw_drv_probe slave drv a = some (ret, s', tr) →
      ret = a ∧ tr = [Event.pmAttach] ∧ s'.probed = slave.probed
        ∧ Event.driverProbe ∉ tr ∧ Event.completeSignal ∉ tr)
    ∧ (∀ (mdrv : sdw_master_driver) a ret tr,
      a ≠ 0 →
      sdw_master_drv_probe mdrv a = some (ret, tr) →
      ret = a ∧ tr = [Event.pmAttach] ∧ Event.driverProbe ∉ tr
        ∧ Event.completeSignal ∉ tr) := by
  constructor
  · intro slave drv id a ret s' tr hid ha hrun
    simp [sdw_drv_probe, hid, ha] at hrun
    obtain ⟨h1, h2, h3⟩ := hrun
    subst h1
    subst h3
    refine ⟨rfl, rfl, ?_, by decide, by decide⟩
    rw [← h2]
  · intro mdrv a ret tr ha hrun
    simp [sdw_master_drv_probe, ha] at hrun
    obtain ⟨h1, h2⟩ := hrun
    subst h1
    subst h2
    exact ⟨rfl, rfl, by decide, by decide⟩

/-- C5 witness: `wSlave` probed by `wDrvOk` with the power-domain attach
failing with -3: the wrapper returns -3 and the driver callback never
runs. -/
theorem C5_attach_failure_aborts_witness :
    (-3 : Int) = (-3 : Int) ∧ [Event.pmAttach] = [Event.pmAttach]
      ∧ wSlave.probed = wSlave.probed
      ∧ Event.driverProbe ∉ [Event.pmAttach]
      ∧ Event.completeSignal ∉ [Event.pmAttach] :=
  C5_attach_failure_aborts.1 wSlave wDrvOk ⟨0x1234, 0x5678⟩ (-3) (-3)
    { wSlave with ops := none } [Event.pmAttach] rfl (by decide) rfl


theorem read_prop_step_events (s : sdw_slave) :
    (read_prop_step s).2 = [] ∨ (read_prop_step s).2 = [Event.readProp] := by
  cases hops : s.ops with
  | none => simp [read_prop_step, hops]
  | some ops =>
    cases hrp : ops.read_prop with
    | none => simp [read_prop_step, hops, hrp]
    | some f => simp [read_prop_step, hops, hrp]

/-- C3 counterexample: a successful controller (master) probe — driver
callback returns 0, attach succeeds — returns success, yet the wrapper
never releases any completion signal (and never touches a probed flag):
the claim's "either device-class variant" fails on the controller
variant. -/
theorem C3_counterexample_master_probe_no_completion :
    sdw_master_drv_probe wMdrvOk 0 = some (0, [Event.pmAttach, Event.driverProbe])
      ∧ Event.completeSignal ∉ [Event.pmAttach, Event.driverProbe] := by
  constructor
  · rfl
  · decide

/-- C3 (amended): for every successful peripheral probe the `probed`
flag is set and the completion signal is released exactly once, strictly
after the driver's probe callback ran and succeeded; the controller
wrapper shares the attach/probe/rollback prefix but on success returns
without releasing any completion signal. -/
theorem C3_amended_probed_and_completion :
    (∀ (slave : sdw_slave) (drv : sdw_driver) a s' tr,
      sdw_drv_probe slave drv a = some (0, s', tr) →
      s'.probed = true
        ∧ (∃ mid, tr = [Event.pmAttach, Event.driverProbe] ++ mid ++ [Event.completeSignal]
            ∧ Event.completeSignal ∉ mid))
    ∧ (∀ (mdrv : sdw_master_driver) a tr,
      sdw_master_drv_probe mdrv a = some (0, tr) →
      tr = [Event.pmAttach, Event.driverProbe] ∧ Event.completeSignal ∉ tr) := by
  constructor
  · intro slave drv a s' tr hrun
    cases hid : sdw_get_device_id slave drv with
    | none => simp [sdw_drv_probe, hid] at hrun
    | some id =>
      by_cases ha : a = 0
      · subst ha
        cases hcb : drv.probe with
        | none => simp [sdw_drv_probe, hid, hcb] at hrun
        | some probe_cb =>
          by_cases hret : (probe_cb id slave.prop).1 = 0
          · simp [sdw_drv_probe, hid, hcb, hret] at hrun
            obtain ⟨hs, ht⟩ := hrun
            constructor
            · rw [← hs]
            · refine ⟨(read_prop_step
                  { slave with ops := drv.ops, prop := (probe_cb id slave.prop).2 }).2,
                ?_, ?_⟩
              · rw [← ht]
                simp
              · rcases read_prop_step_events
                    { slave with ops := drv.ops, prop := (probe_cb id slave.prop).2 } with h | h
                · rw [h]
                  decide
                · rw [h]
                  decide
          · simp [sdw_drv_probe, hid, hcb, hret] at hrun
      · simp [sdw_drv_probe, hid, ha] at hrun
  · intro mdrv a tr hrun
    by_cases ha : a = 0
    · subst ha
      cases hcb : mdrv.probe with
      | none => simp [sdw_master_drv_probe, hcb] at hrun
      | some r =>
        by_cases hr : r = 0
        · subst hr
          simp [sdw_master_drv_probe, hcb] at hrun
          rw [← hrun]
          exact ⟨rfl, by decide⟩
        · simp [sdw_master_drv_probe, hcb, hr] at hrun
    · simp [sdw_master_drv_probe, ha] at hrun

/-- C3 witness: `wSlave` successfully probed by `wDrvOk` (attach and
callback both succeed): probed is set and the completion signal appears
exactly once, after the callback. -/
theorem C3_amended_probed_and_completion_witness :
    (⟨⟨0x1234, 0x5678⟩, ⟨300⟩, true, none, 300⟩ : sdw_slave).probed = true
      ∧ (∃ mid, [Event.pmAttach, Event.driverProbe, Event.completeSignal]
          = [Event.pmAttach, Event.driverProbe] ++ mid ++ [Event.completeSignal]
          ∧ Event.completeSignal ∉ mid) :=
  C3_amended_probed_and_completion.1 wSlave wDrvOk 0
    ⟨⟨0x1234, 0x5678⟩, ⟨300⟩, true, none, 300⟩
    [Event.pmAttach, Event.driverProbe, Event.completeSignal] rfl

theorem read_prop_step_bus (s : sdw_slave) :
    (read_prop_step s).1.bus_clk_stop_timeout = s.bus_clk_stop_timeout := by
  cases hops : s.ops with
  | none => simp [read_prop_step, hops]
  | some ops =>
    cases hrp : ops.read_prop with
    | none => simp [read_prop_step, hops, hrp]
    | some f => simp [read_prop_step, hops, hrp]

/-- C6: after a successful slave probe, the device's declared
`clk_stop_timeout` (the property-bag value once the driver's callback
and `read_prop` have run) is defaulted to 300 when zero and kept
otherwise, and the bus-wide timeout becomes the max of its previous
value and the device's final timeout. -/
theorem C6_clk_stop_timeout_update :
    ∀ (slave : sdw_slave) (drv : sdw_driver) (id : sdw_device_id) a s' tr,
      sdw_get_device_id slave drv = some id →
      sdw_drv_probe slave drv a = some (0, s', tr) →
      s'.prop.clk_stop_timeout =
          (if (probe_declared_prop slave drv id).clk_stop_timeout = 0 then 300
           else (probe_declared_prop slave drv id).clk_stop_timeout)
        ∧ s'.bus_clk_stop_timeout
            = max slave.bus_clk_stop_timeout s'.prop.clk_stop_timeout := by
  intro slave drv id a s' tr hid hrun
  by_cases ha : a = 0
  · subst ha
    cases hcb : drv.probe with
    | none => simp [sdw_drv_probe, hid, hcb] at hrun
    | some probe_cb =>
      by_cases hret : (probe_cb id slave.prop).1 = 0
      · simp [sdw_drv_probe, hid, hcb, hret] at hrun
        obtain ⟨hs, -⟩ := hrun
        rw [← hs]
        simp only [probe_declared_prop, hcb]
        by_cases h0 : (read_prop_step
            { slave with ops := drv.ops, prop := (probe_cb id slave.prop).2
              }).1.prop.clk_stop_timeout = 0
        · simp [h0, read_prop_step_bus]
        · simp [h0, read_prop_step_bus]
      · simp [sdw_drv_probe, hid, hcb, hret] at hrun
  · simp [sdw_drv_probe, hid, ha] at hrun

/-- C6 witness: the spec's scenario — `wSlave` (declared timeout 0, bus
at 150) successfully probed by `wDrvOk` ends with device timeout 300 and
bus timeout max(150, 300) = 300. -/
theorem C6_clk_stop_timeout_update_witness :
    (⟨⟨0x1234, 0x5678⟩, ⟨300⟩, true, none, 300⟩ : sdw_slave).prop.clk_stop_timeout
        = (if (probe_declared_prop wSlave wDrvOk ⟨0x1234, 0x5678⟩).clk_stop_timeout = 0
           then 300
           else (probe_declared_prop wSlave wDrvOk ⟨0x1234, 0x5678⟩).clk_stop_timeout)
      ∧ (⟨⟨0x1234, 0x5678⟩, ⟨300⟩, true, none, 300⟩ : sdw_slave).bus_clk_stop_timeout
          = max wSlave.bus_clk_stop_timeout
              (⟨⟨0x1234, 0x5678⟩, ⟨300⟩, true, none, 300⟩ : sdw_slave).prop.clk_stop_timeout :=
  C6_clk_stop_timeout_update wSlave wDrvOk ⟨0x1234, 0x5678⟩ 0
    ⟨⟨0x1234, 0x5678⟩, ⟨300⟩, true, none, 300⟩
    [Event.pmAttach, Event.driverProbe, Event.completeSignal] rfl rfl

/-- C7: for both device-class variants, the remove wrapper invokes the
driver's remove callback exactly when one is declared, always detaches
the power domain afterward (even when the callback failed), and returns
the callback's error code, or success when no callback exists. -/
theorem C7_remove_always_detaches :
    (∀ drv : sdw_driver,
      Event.pmDetach ∈ (sdw_drv_remove drv).2
        ∧ (drv.remove = none → sdw_drv_remove drv = (0, [Event.pmDetach]))
        ∧ (∀ r, drv.remove = some r →
            sdw_drv_remove drv = (r, [Event.driverRemove, Event.pmDetach])))
    ∧ (∀ mdrv : sdw_master_driver,
      Event.pmDetach ∈ (sdw_master_drv_remove mdrv).2
        ∧ (mdrv.remove = none → sdw_master_drv_remove mdrv = (0, [Event.pmDetach]))
        ∧ (∀ r, mdrv.remove = some r →
            sdw_master_drv_remove mdrv = (r, [Event.driverRemove, Event.pmDetach]))) := by
  constructor
  · intro drv
    refine ⟨?_, ?_, ?_⟩
    · cases h : drv.remove with
      | none => simp [sdw_drv_remove, h]
      | some r => simp [sdw_drv_remove, h]
    · intro h
      simp [sdw_drv_remove, h]
    · intro r h
      simp [sdw_drv_remove, h]
  · intro mdrv
    refine ⟨?_, ?_, ?_⟩
    · cases h : mdrv.remove with
      | none => simp [sdw_master_drv_remove, h]
      | some r => simp [sdw_master_drv_remove, h]
    · intro h
      simp [sdw_master_drv_remove, h]
    · intro r h
      simp [sdw_master_drv_remove, h]

/-- C7 witness: removal with `wDrvRem` / `wMdrvFail`, whose remove
callbacks fail with -7: the detach still happens and -7 is returned. -/
theorem C7_remove_always_detaches_witness :
    sdw_drv_remove wDrvRem = (-7, [Event.driverRemove, Event.pmDetach])
      ∧ Event.pmDetach ∈ (sdw_drv_remove wDrvRem).2
      ∧ sdw_master_drv_remove wMdrvFail = (-7, [Event.driverRemove, Event.pmDetach]) :=
  ⟨(C7_remove_always_detaches.1 wDrvRem).2.2 (-7) rfl,
   (C7_remove_always_detaches.1 wDrvRem).1,
   (C7_remove_always_detaches.2 wMdrvFail).2.2 (-7) rfl⟩

/-- C8: registering a driver (of either kind) that declares no probe
callback fails with `-EINVAL` (-22), installs no wrapper, and never
reaches `driver_register`. -/
theorem C8_register_requires_probe :
    (∀ (drv : sdw_driver) (registry_ret : Int), drv.probe = none →
      __sdw_register_driver drv registry_ret = (-22, ⟨false, false, false⟩, false))
    ∧ (∀ (mdrv : sdw_master_driver) (registry_ret : Int), mdrv.probe = none →
      __sdw_register_master_driver mdrv registry_ret
        = (-22, ⟨false, false, false⟩, false)) := by
  constructor
  · intro drv registry_ret h
    simp [__sdw_register_driver, h]
  · intro mdrv registry_ret h
    simp [__sdw_register_master_driver, h]

/-- C8 witness: concrete probe-less drivers of both kinds are rejected
with -22 and no registry call. -/
theorem C8_register_requires_probe_witness :
    __sdw_register_driver wDrvNoProbe 7 = (-22, ⟨false, false, false⟩, false)
      ∧ __sdw_register_master_driver wMdrvNoProbe 7 = (-22, ⟨false, false, false⟩, false) :=
  ⟨C8_register_requires_probe.1 wDrvNoProbe 7 rfl,
   C8_register_requires_probe.2 wMdrvNoProbe 7 rfl⟩

theorem hexRevAux_zero (f : Nat) : hexRevAux f 0 = [] := by
  cases f <;> simp [hexRevAux]

theorem hexDigit_zero : hexDigit 0 = '0' := rfl

theorem hexRevAux_lt_16 (f n : Nat) (hf : 1 ≤ f) (h1 : 0 < n) (h2 : n < 16) :
    hexRevAux f n = [hexDigit n] := by
  obtain ⟨g, rfl⟩ : ∃ g, f = g + 1 := ⟨f - 1, by omega⟩
  have hne : ¬n = 0 := by omega
  have hm : n % 16 = n := Nat.mod_eq_of_lt h2
  have hd : n / 16 = 0 := Nat.div_eq_of_lt h2
  simp [hexRevAux, hne, hm, hd, hexRevAux_zero]

theorem hexRevAux_lt_256 (f n : Nat) (hf : 2 ≤ f) (h1 : 16 ≤ n) (h2 : n < 256) :
    hexRevAux f n = [hexDigit (n % 16), hexDigit (n / 16)] := by
  obtain ⟨g, rfl⟩ : ∃ g, f = g + 1 := ⟨f - 1, by omega⟩
  have hne : ¬n = 0 := by omega
  simp only [hexRevAux, if_neg hne]
  rw [hexRevAux_lt_16 g (n / 16) (by omega) (by omega) (by omega)]

theorem hexRevAux_lt_4096 (f n : Nat) (hf : 3 ≤ f) (h1 : 256 ≤ n) (h2 : n < 4096) :
    hexRevAux f n = [hexDigit (n % 16), hexDigit (n / 16 % 16), hexDigit (n / 256)] := by
  obtain ⟨g, rfl⟩ : ∃ g, f = g + 1 := ⟨f - 1, by omega⟩
  have hne : ¬n = 0 := by omega
  simp only [hexRevAux, if_neg hne]
  rw [hexRevAux_lt_256 g (n / 16) (by omega) (by omega) (by omega)]
  have hdd : n / 16 / 16 = n / 256 := by omega
  rw [hdd]

theorem hexRevAux_lt_65536 (f n : Nat) (hf : 4 ≤ f) (h1 : 4096 ≤ n) (h2 : n < 65536) :
    hexRevAux f n
      = [hexDigit (n % 16), hexDigit (n / 16 % 16), hexDigit (n / 256 % 16),
         hexDigit (n / 4096)] := by
  obtain ⟨g, rfl⟩ : ∃ g, f = g + 1 := ⟨f - 1, by omega⟩
  have hne : ¬n = 0 := by omega
  simp only [hexRevAux, if_neg hne]
  rw [hexRevAux_lt_4096 g (n / 16) (by omega) (by omega) (by omega)]
  have hdd : n / 16 / 16 = n / 256 := by omega
  have hdd2 : n / 16 / 256 = n / 4096 := by omega
  rw [hdd, hdd2]

theorem snprintf_04X_eq_hex4 (n : Nat) (h : n < 65536) : snprintf_04X n = hex4 n := by
  by_cases h0 : n = 0
  · subst h0
    decide
  · by_cases hA : n < 16
    · have e1 : n / 4096 = 0 := by omega
      have e2 : n / 256 = 0 := by omega
      have e3 : n / 16 = 0 := by omega
      have e4 : n % 16 = n := by omega
      rw [snprintf_04X, snprintf_X, if_neg h0,
        hexRevAux_lt_16 n n (by omega) (by omega) (by omega)]
      simp [hex4, e1, e2, e3, e4, hexDigit_zero, List.replicate]
    · by_cases hB : n < 256
      · have e1 : n / 4096 = 0 := by omega
        have e2 : n / 256 = 0 := by omega
        have e3 : n / 16 % 16 = n / 16 := by omega
        rw [snprintf_04X, snprintf_X, if_neg h0,
          hexRevAux_lt_256 n n (by omega) (by omega) (by omega)]
        simp [hex4, e1, e2, e3, hexDigit_zero, List.replicate]
      · by_cases hC : n < 4096
        · have e1 : n / 4096 = 0 := by omega
          have e2 : n / 256 % 16 = n / 256 := by omega
          rw [snprintf_04X, snprintf_X, if_neg h0,
            hexRevAux_lt_4096 n n (by omega) (by omega) (by omega)]
          simp [hex4, e1, e2, hexDigit_zero, List.replicate]
        · have e1 : n / 4096 % 16 = n / 4096 := by omega
          rw [snprintf_04X, snprintf_X, if_neg h0,
            hexRevAux_lt_65536 n n (by omega) (by omega) (by omega)]
          simp [hex4, e1, List.replicate]

/-- C4 counterexample: the formatter emits a trailing newline, so the
scenario device (0x1234, 0x5678) does NOT format as exactly
"sdw:m1234p5678" — it formats as that string followed by a newline. -/
theorem C4_counterexample_trailing_newline :
    sdw_slave_modalias wSlave ≠ "sdw:m1234p5678".toList
      ∧ sdw_slave_modalias wSlave = "sdw:m1234p5678\n".toList := by
  constructor
  · decide
  · decide

/-- C4 (amended): the peripheral modalias formatter produces exactly
"sdw:m%04Xp%04X" followed by a newline, with manufacturer_id then
part_id rendered as uppercase 4-digit hexadecimal. -/
theorem C4_amended_modalias_format :
    ∀ slave : sdw_slave, slave.id.mfg_id < 65536 → slave.id.part_id < 65536 →
      sdw_slave_modalias slave
        = "sdw:m".toList ++ hex4 slave.id.mfg_id ++ "p".toList
            ++ hex4 slave.id.part_id ++ "\n".toList := by
  intro slave h1 h2
  rw [sdw_slave_modalias, snprintf_04X_eq_hex4 _ h1, snprintf_04X_eq_hex4 _ h2]

/-- C4 witness: the scenario device (0x1234, 0x5678). -/
theorem C4_amended_modalias_format_witness :
    wSlave.id.mfg_id < 65536
      ∧ sdw_slave_modalias wSlave
          = "sdw:m".toList ++ hex4 wSlave.id.mfg_id ++ "p".toList
              ++ hex4 wSlave.id.part_id ++ "\n".toList :=
  ⟨by decide, C4_amended_modalias_format wSlave (by decide) (by decide)⟩
